import Mathlib

/-!
Shallow embedding of the tunnel-manager core from
`src/CloudflareTunnelManager.tsx` (the Worker-proxy variant): the
`createTunnel` and `deleteTunnel` orchestration workflows, the session state
they mutate, and the pure configuration renderer `buildYaml`.

The React `useState` cells form the session state.  Each remote exchange
(`fetch` followed by `res.json()`) is modelled by a `Response` value supplied
by the environment: the fetch itself may reject (`netErr`), the body parse may
throw (`parseErr`), or a JSON body arrives (`body`).  The workflows are pure
functions from a prior state and the responses of the environment to the
final state paired with the ordered list of remote calls attempted.
-/

/-- Shape of a parsed JSON response body as the code reads it:
`json.success`, `json.errors?.[0]?.message`, `json.result.id`,
`json.result.token`. -/
structure ApiJson where
  success : Bool
  errMsg : Option String
  resultId : String
  resultToken : String
deriving DecidableEq, Repr

/-- Outcome of one `fetch` + `res.json()` exchange, chosen by the
environment: the fetch rejects (transport failure), the fetch yields a
response whose body fails to parse, or a parsed body arrives with an HTTP
status code. -/
inductive Response where
  | netErr (msg : String)
  | parseErr (httpStatus : Nat) (msg : String)
  | body (httpStatus : Nat) (j : ApiJson)
deriving DecidableEq, Repr

/-- True when the exchange produced a body with `success: true`; every other
outcome (service-declined body, parse throw, transport throw) is a failure of
the call. -/
def Response.isSuccess : Response → Bool
  | .body _ j => j.success
  | _ => false

/-- True exactly for a transport-level rejection of the fetch itself. -/
def Response.isNetErr : Response → Bool
  | .netErr _ => true
  | _ => false

/-- One entry of the local diagnostic `logs` array; each constructor mirrors
one `logs.push(...)` site in the source, carrying the dynamic data that the
source interpolates into the entry. -/
inductive LogEntry where
  | startCreate (name : String)
  | createStatus (httpStatus : Nat)
  | createBody (j : ApiJson)
  | createFailed (msg : Option String)
  | tunnelCreated (id : String)
  | configuringHostname (host : String)
  | hostnameStatus (httpStatus : Nat)
  | hostnameBody (j : ApiJson)
  | hostnameFailed (msg : Option String)
  | hostnameConfigured
  | startDelete (id : String)
  | deleteStatus (httpStatus : Nat)
  | deleteBody (j : ApiJson)
  | deleteFailed
  | deletingCname (host : String)
  | cnameStatus (httpStatus : Nat)
  | cnameBody (j : Option ApiJson)
  | deletedBoth
  | fetchThrew (msg : String)
deriving DecidableEq, Repr

/-- A remote mutating call attempted by a workflow, tagged with the endpoint
and the request data the source sends. -/
inductive RemoteCall where
  | createCall (name : String)
  | hostnameCall (tunnelId subdomain domain service : String)
  | deleteCall (id : String)
  | cnameDeleteCall (subdomain domain : String)
deriving DecidableEq, Repr

/-- The React state cells of the component.  `tunnelId` and `tunnelToken` are
plain strings with the empty string as the "no value" sentinel, exactly as in
the source (`if (!tunnelId)` treats `""` as absent); `publicHostname`,
`status` and `error` are nullable.  `loading` is the busy flag and
`debugLogs` the persisted diagnostic trace. -/
structure SessionState where
  tunnelName : String
  tunnelId : String
  tunnelToken : String
  publicHostname : Option String
  status : Option (Bool × String)
  loading : Bool
  error : Option String
  debugLogs : List LogEntry
deriving DecidableEq, Repr

/-- `const FIXED_DOMAIN = "house-iq.cc"`. -/
def FIXED_DOMAIN : String := "house-iq.cc"

/-- `const FIXED_SERVICE = "http://homeassistant:8123"`. -/
def FIXED_SERVICE : String := "http://homeassistant:8123"

/-- The initial `useState` values of the component. -/
def initState : SessionState :=
  { tunnelName := "api-tunnel"
    tunnelId := ""
    tunnelToken := ""
    publicHostname := none
    status := none
    loading := false
    error := none
    debugLogs := [] }

/-- JavaScript `x || d` on a possibly-absent string: both `undefined` and the
empty string are falsy and select the fallback. -/
def jsOr (o : Option String) (d : String) : String :=
  match o with
  | some m => if m = "" then d else m
  | none => d

/-- JavaScript `m || d` on a string: the empty string is falsy. -/
def jsOrStr (m d : String) : String :=
  if m = "" then d else m

/-- Message of a caught exception in the workflows:
`e.message || "Network or CORS error"`. -/
def caughtMsg (m : String) : String :=
  jsOrStr m "Network or CORS error"

/-- The opening phase of `createTunnel`, before any remote call:
`setLoading(true); setStatus(null); setError(null); setDebugLogs([])`.
Note that `tunnelId`, `tunnelToken` and `publicHostname` are not touched
here. -/
def createStart (s : SessionState) : SessionState :=
  { s with loading := true, status := none, error := none, debugLogs := [] }

/-- The `createTunnel` workflow.  `createResp` answers the
`POST /api/create` exchange and `hostResp` the `POST /api/hostname`
exchange.  Returns the final session state and the ordered list of remote
calls attempted. -/
def createTunnel (s0 : SessionState) (createResp hostResp : Response) :
    SessionState × List RemoteCall :=
  let s := createStart s0
  let logs : List LogEntry := [.startCreate s.tunnelName]
  match createResp with
  | .netErr m =>
      ({ s with
          debugLogs := logs ++ [.fetchThrew (caughtMsg m)]
          error := some (caughtMsg m)
          loading := false },
       [.createCall s.tunnelName])
  | .parseErr st m =>
      ({ s with
          debugLogs := logs ++ [.createStatus st, .fetchThrew (caughtMsg m)]
          error := some (caughtMsg m)
          loading := false },
       [.createCall s.tunnelName])
  | .body st j =>
      let logs := logs ++ [.createStatus st, .createBody j]
      if j.success = false then
        ({ s with
            debugLogs := logs ++ [.createFailed j.errMsg]
            error := some (jsOr j.errMsg "Unknown error")
            loading := false },
         [.createCall s.tunnelName])
      else
        let id := j.resultId
        let token := j.resultToken
        let logs := logs ++ [.tunnelCreated id]
        let s := { s with tunnelId := id, tunnelToken := token }
        let host := s.tunnelName ++ "." ++ FIXED_DOMAIN
        let logs := logs ++ [.configuringHostname host]
        let calls := [RemoteCall.createCall s.tunnelName,
                      RemoteCall.hostnameCall id s.tunnelName FIXED_DOMAIN FIXED_SERVICE]
        match hostResp with
        | .netErr m =>
            ({ s with
                debugLogs := logs ++ [.fetchThrew (caughtMsg m)]
                error := some (caughtMsg m)
                loading := false },
             calls)
        | .parseErr st2 m =>
            ({ s with
                debugLogs := logs ++ [.hostnameStatus st2, .fetchThrew (caughtMsg m)]
                error := some (caughtMsg m)
                loading := false },
             calls)
        | .body st2 hj =>
            let logs := logs ++ [.hostnameStatus st2, .hostnameBody hj]
            if hj.success = false then
              ({ s with
                  debugLogs := logs ++ [.hostnameFailed hj.errMsg]
                  error := some (jsOr hj.errMsg "Hostname create failed")
                  loading := false },
               calls)
            else
              let _logs := logs ++ [.hostnameConfigured]
              ({ s with
                  publicHostname := some host
                  status := some (true, "Tunnel + hostname ready (" ++ id ++ ")")
                  loading := false },
               calls)

/-- The `deleteTunnel` workflow.  `delResp` answers the
`DELETE /api/delete/:id` exchange and `cnameResp` the
`DELETE /api/hostname` exchange.  A parse failure of the CNAME body is
absorbed by `.json().catch(() => null)`, but a transport rejection of the
CNAME fetch propagates to the outer catch.  The success flag of the CNAME
body is never inspected. -/
def deleteTunnel (s0 : SessionState) (delResp cnameResp : Response) :
    SessionState × List RemoteCall :=
  if s0.tunnelId = "" then
    ({ s0 with error := some "No tunnel ID set" }, [])
  else
    let s := { s0 with loading := true, status := none, error := none, debugLogs := [] }
    let logs : List LogEntry := [.startDelete s.tunnelId]
    match delResp with
    | .netErr m =>
        ({ s with
            debugLogs := logs ++ [.fetchThrew (caughtMsg m)]
            error := some (caughtMsg m)
            loading := false },
         [.deleteCall s.tunnelId])
    | .parseErr st m =>
        ({ s with
            debugLogs := logs ++ [.deleteStatus st, .fetchThrew (caughtMsg m)]
            error := some (caughtMsg m)
            loading := false },
         [.deleteCall s.tunnelId])
    | .body st j =>
        let logs := logs ++ [.deleteStatus st, .deleteBody j]
        if j.success = false then
          ({ s with
              debugLogs := logs ++ [.deleteFailed]
              error := some "Delete tunnel failed"
              loading := false },
           [.deleteCall s.tunnelId])
        else
          let host := s.tunnelName ++ "." ++ FIXED_DOMAIN
          let logs := logs ++ [.deletingCname host]
          let calls := [RemoteCall.deleteCall s.tunnelId,
                        RemoteCall.cnameDeleteCall s.tunnelName FIXED_DOMAIN]
          match cnameResp with
          | .netErr m =>
              ({ s with
                  debugLogs := logs ++ [.fetchThrew (caughtMsg m)]
                  error := some (caughtMsg m)
                  loading := false },
               calls)
          | .parseErr st2 _ =>
              let _logs := logs ++ [.cnameStatus st2, .cnameBody none, .deletedBoth]
              ({ s with
                  tunnelId := ""
                  tunnelToken := ""
                  publicHostname := none
                  status := some (true, "Tunnel + hostname deleted")
                  loading := false },
               calls)
          | .body st2 cj =>
              let _logs := logs ++ [.cnameStatus st2, .cnameBody (some cj), .deletedBoth]
              ({ s with
                  tunnelId := ""
                  tunnelToken := ""
                  publicHostname := none
                  status := some (true, "Tunnel + hostname deleted")
                  loading := false },
               calls)

/-- The overall workflow outcome as the UI presents it: the error banner
(shown whenever `error` is non-null) reports a failure with its message,
otherwise the status banner reports `status.ok` with `status.msg`. -/
def overallOutcome (s : SessionState) : Option (Bool × String) :=
  match s.error with
  | some m => some (false, m)
  | none => s.status

/-- `buildYaml(token, hostname)`: the template literal from the source,
verbatim. -/
def buildYaml (token : String) (hostname : String) : String :=
  "external_hostname: " ++ hostname ++
  "\nadditional_hosts: []\ntunnel_token: >-\n  " ++ token ++
  "\nnginx_proxy_manager: true\nlog_level: debug\nrun_parameters:\n  - \"--logfile=/config/cloudflared.log\"\n  - \"--loglevel=debug\"\n  - \"--retries=0\""

/-- Modelled from the spec (for the refinement claim about the renderer):
"a text block with fixed keys — external hostname, empty additional-hosts
list, a multi-line token field, a boolean feature flag, a log-level string,
and a fixed list of runtime parameter strings — values substituted
verbatim", assembled line by line. -/
def renderSpec (token : String) (hostname : String) : String :=
  String.intercalate "\n"
    [ "external_hostname: " ++ hostname
    , "additional_hosts: []"
    , "tunnel_token: >-"
    , "  " ++ token
    , "nginx_proxy_manager: true"
    , "log_level: debug"
    , "run_parameters:"
    , "  - \"--logfile=/config/cloudflared.log\""
    , "  - \"--loglevel=debug\""
    , "  - \"--retries=0\"" ]

/-- One environment-resolved invocation of a workflow: a `create` with the
two responses of its exchanges, or a `delete` with the two responses of
its exchanges. -/
inductive Op where
  | create (createResp hostResp : Response)
  | delete (delResp cnameResp : Response)
deriving DecidableEq, Repr

/-- Apply one invocation to the session state. -/
def applyOp (s : SessionState) (op : Op) : SessionState :=
  match op with
  | .create r1 r2 => (createTunnel s r1 r2).1
  | .delete r1 r2 => (deleteTunnel s r1 r2).1

/-- Run a sequence of invocations from a state. -/
def runOps (s : SessionState) : List Op → SessionState
  | [] => s
  | op :: ops => runOps (applyOp s op) ops

/-! ### Concrete example values used by witnesses and counterexamples -/

/-- An allocate response that succeeds with identity `t1` and credential
`secret123`. -/
def okCreateResp : Response := .body 200 ⟨true, none, "t1", "secret123"⟩

/-- A generic successful response (bind-hostname or release calls). -/
def okBindResp : Response := .body 200 ⟨true, none, "", ""⟩

/-- A service-declined response carrying the message `quota exceeded`. -/
def quotaFailResp : Response := .body 200 ⟨false, some "quota exceeded", "", ""⟩

/-- A service-declined response carrying the message `boom`. -/
def boomFailResp : Response := .body 400 ⟨false, some "boom", "", ""⟩

/-- The session state after one fully successful create from the initial
state: identity `t1`, credential `secret123`, hostname
`api-tunnel.house-iq.cc`. -/
def provisionedState : SessionState := (createTunnel initState okCreateResp okBindResp).1

/-! ### Claims -/

/-- Claim C4 (confirmed): for every `create` invocation whose allocate call
fails (service-declined body, parse throw, or transport throw), a session
that held no tunnel identity, credential or hostname binding still holds
none of them afterwards, and exactly one remote call was attempted. -/
theorem create_alloc_fail_frame (s : SessionState) (r1 r2 : Response)
    (hid : s.tunnelId = "") (htok : s.tunnelToken = "")
    (hhost : s.publicHostname = none) (hfail : r1.isSuccess = false) :
    (createTunnel s r1 r2).1.tunnelId = "" ∧
    (createTunnel s r1 r2).1.tunnelToken = "" ∧
    (createTunnel s r1 r2).1.publicHostname = none ∧
    (createTunnel s r1 r2).2 = [RemoteCall.createCall s.tunnelName] := by
  cases r1 with
  | netErr m => simp [createTunnel, createStart, hid, htok, hhost]
  | parseErr st m => simp [createTunnel, createStart, hid, htok, hhost]
  | body st j =>
      simp [Response.isSuccess] at hfail
      simp [createTunnel, createStart, hid, htok, hhost, hfail]

/-- Witness for C4: from the initial state, an allocate call declined with
message `boom` leaves all three fields empty and attempts exactly the one
create call. -/
theorem create_alloc_fail_frame_witness :
    (createTunnel initState boomFailResp okBindResp).1.tunnelId = "" ∧
    (createTunnel initState boomFailResp okBindResp).1.tunnelToken = "" ∧
    (createTunnel initState boomFailResp okBindResp).1.publicHostname = none ∧
    (createTunnel initState boomFailResp okBindResp).2 =
      [RemoteCall.createCall "api-tunnel"] :=
  create_alloc_fail_frame initState boomFailResp okBindResp rfl rfl rfl rfl

/-- Claim C5 (confirmed): for every `delete` invocation whose release-tunnel
call fails (in any of the three failure modes), the identity, credential and
hostname binding are unchanged from before the invocation and the
release-hostname call is not attempted (the call list is exactly the one
release-tunnel call). -/
theorem delete_release_fail_frame (s : SessionState) (r1 r2 : Response)
    (hid : s.tunnelId ≠ "") (hfail : r1.isSuccess = false) :
    (deleteTunnel s r1 r2).1.tunnelId = s.tunnelId ∧
    (deleteTunnel s r1 r2).1.tunnelToken = s.tunnelToken ∧
    (deleteTunnel s r1 r2).1.publicHostname = s.publicHostname ∧
    (deleteTunnel s r1 r2).2 = [RemoteCall.deleteCall s.tunnelId] := by
  cases r1 with
  | netErr m => simp [deleteTunnel, hid]
  | parseErr st m => simp [deleteTunnel, hid]
  | body st j =>
      simp [Response.isSuccess] at hfail
      simp [deleteTunnel, hid, hfail]

/-- Witness for C5: deleting from the provisioned state with a declined
release-tunnel response leaves identity `t1`, credential and binding in
place and attempts only the release-tunnel call. -/
theorem delete_release_fail_frame_witness :
    (deleteTunnel provisionedState boomFailResp okBindResp).1.tunnelId =
      provisionedState.tunnelId ∧
    (deleteTunnel provisionedState boomFailResp okBindResp).1.tunnelToken =
      provisionedState.tunnelToken ∧
    (deleteTunnel provisionedState boomFailResp okBindResp).1.publicHostname =
      provisionedState.publicHostname ∧
    (deleteTunnel provisionedState boomFailResp okBindResp).2 =
      [RemoteCall.deleteCall "t1"] :=
  delete_release_fail_frame provisionedState boomFailResp okBindResp (by decide) rfl

/-- Claim C9 (confirmed): `buildYaml` equals, for all string inputs, the
reference template assembled line by line from the fixed keys the spec
lists (external hostname, empty additional-hosts list, multi-line token
field, boolean feature flag, log-level string, fixed runtime parameter
strings), with token and hostname substituted verbatim and unescaped.  As a
total function with this closed form it always succeeds, is deterministic
and is idempotent: identical inputs give byte-identical output. -/
theorem buildYaml_refines_renderSpec (token hostname : String) :
    buildYaml token hostname = renderSpec token hostname := by
  have h : ∀ r : String,
      ("\nadditional_hosts: []\ntunnel_token: >-\n" : String) ++ ("  " ++ r) =
        "\nadditional_hosts: []\ntunnel_token: >-\n  " ++ r := by
    intro r
    rw [← String.append_assoc]
    rfl
  simp [buildYaml, renderSpec, String.intercalate, String.intercalate.go,
    String.append_assoc, h]

/-- Claim C10 (confirmed): every `create` invocation ends with the busy flag
false (the finally block always runs), and every `delete` invocation that
passes its id precondition ends with the busy flag false, whatever the
responses — full success, service-declined response, parse throw or
transport throw at any point. -/
theorem busy_flag_cleared :
    (∀ (s : SessionState) (r1 r2 : Response),
        (createTunnel s r1 r2).1.loading = false) ∧
    (∀ (s : SessionState) (r1 r2 : Response), s.tunnelId ≠ "" →
        (deleteTunnel s r1 r2).1.loading = false) := by
  constructor
  · intro s r1 r2
    cases r1 <;> cases r2 <;>
      simp only [createTunnel, createStart] <;>
      (try split) <;> (try split) <;> rfl
  · intro s r1 r2 hid
    cases r1 <;> cases r2 <;>
      simp only [deleteTunnel, if_neg hid] <;>
      (try split) <;> rfl

/-- Witness for C10: a fully successful create and a delete whose CNAME
fetch throws both terminate with the busy flag false. -/
theorem busy_flag_cleared_witness :
    (createTunnel initState okCreateResp okBindResp).1.loading = false ∧
    (deleteTunnel provisionedState okBindResp (Response.netErr "connection refused")).1.loading =
      false :=
  ⟨busy_flag_cleared.1 initState okCreateResp okBindResp,
   busy_flag_cleared.2 provisionedState okBindResp (Response.netErr "connection refused")
     (by decide)⟩

/-- Claim C1 (corrected), counterexample: the claim says the hostname
binding is null after a create whose allocate succeeds and whose bind is
declined — but the code never clears `publicHostname` on entry, so a second
create after a fully successful one keeps the stale binding.  Here the
allocate response succeeds, the bind response is non-success, yet the
binding afterwards is the old `api-tunnel.house-iq.cc`, not null. -/
theorem create_bind_fail_stale_binding :
    okCreateResp.isSuccess = true ∧
    quotaFailResp.isSuccess = false ∧
    (createTunnel provisionedState okCreateResp quotaFailResp).1.publicHostname =
      some "api-tunnel.house-iq.cc" ∧
    (createTunnel provisionedState okCreateResp quotaFailResp).1.publicHostname ≠ none := by
  refine ⟨rfl, rfl, rfl, ?_⟩
  decide

/-- Claim C1 (corrected, amended): for every create where the allocate call
succeeds and the bind call returns a service-declined response with a
nonempty message, the session afterwards holds the identity and credential
extracted from the allocate payload (non-null when the payload fields are
nonempty), the hostname binding is unchanged from before the invocation —
hence null whenever the session held none before, e.g. any fresh session —
the overall outcome is Failure carrying the service message, and exactly
the two forward calls were made, no rollback of the allocated tunnel. -/
theorem create_bind_fail_amended (s : SessionState) (st st2 : Nat)
    (j hj : ApiJson) (m : String)
    (halloc : j.success = true) (hid : j.resultId ≠ "") (htok : j.resultToken ≠ "")
    (hbind : hj.success = false) (hmsg : hj.errMsg = some m) (hm : m ≠ "") :
    (createTunnel s (.body st j) (.body st2 hj)).1.tunnelId = j.resultId ∧
    (createTunnel s (.body st j) (.body st2 hj)).1.tunnelId ≠ "" ∧
    (createTunnel s (.body st j) (.body st2 hj)).1.tunnelToken = j.resultToken ∧
    (createTunnel s (.body st j) (.body st2 hj)).1.tunnelToken ≠ "" ∧
    (createTunnel s (.body st j) (.body st2 hj)).1.publicHostname = s.publicHostname ∧
    overallOutcome (createTunnel s (.body st j) (.body st2 hj)).1 = some (false, m) ∧
    (createTunnel s (.body st j) (.body st2 hj)).2 =
      [RemoteCall.createCall s.tunnelName,
       RemoteCall.hostnameCall j.resultId s.tunnelName FIXED_DOMAIN FIXED_SERVICE] := by
  simp [createTunnel, createStart, overallOutcome, jsOr, halloc, hbind, hid, htok,
    hmsg, hm]

/-- Witness for the amended C1: from the initial state, allocate succeeds
with `t1`/`secret123` and bind is declined with `quota exceeded`; the
session keeps both extracted values, the binding stays null, and the
outcome is Failure with the service message. -/
theorem create_bind_fail_amended_witness :
    (createTunnel initState (Response.body 200 ⟨true, none, "t1", "secret123"⟩)
        (Response.body 200 ⟨false, some "quota exceeded", "", ""⟩)).1.tunnelId = "t1" ∧
    (createTunnel initState (Response.body 200 ⟨true, none, "t1", "secret123"⟩)
        (Response.body 200 ⟨false, some "quota exceeded", "", ""⟩)).1.publicHostname = none ∧
    overallOutcome (createTunnel initState (Response.body 200 ⟨true, none, "t1", "secret123"⟩)
        (Response.body 200 ⟨false, some "quota exceeded", "", ""⟩)).1 =
      some (false, "quota exceeded") :=
  have h := create_bind_fail_amended initState 200 200
    ⟨true, none, "t1", "secret123"⟩ ⟨false, some "quota exceeded", "", ""⟩
    "quota exceeded" rfl (by decide) (by decide) rfl rfl (by decide)
  ⟨h.1, h.2.2.2.2.1, h.2.2.2.2.2.1⟩

/-- Claim C2 (corrected), counterexample: the claim says delete releases the
hostname binding first and the tunnel second; on a provisioned session with
both calls answered successfully, the attempted calls are the release-tunnel
call first and the CNAME release second. -/
theorem delete_order_tunnel_first :
    (deleteTunnel provisionedState okBindResp okBindResp).2 =
      [RemoteCall.deleteCall "t1",
       RemoteCall.cnameDeleteCall "api-tunnel" "house-iq.cc"] ∧
    (deleteTunnel provisionedState okBindResp okBindResp).2.head? ≠
      some (RemoteCall.cnameDeleteCall "api-tunnel" "house-iq.cc") := by
  refine ⟨rfl, ?_⟩
  decide

/-- Claim C2 (corrected, amended): every delete invocation attempts no call,
only the release-tunnel call, or the release-tunnel call followed by the
release-hostname call — whenever both calls occur the tunnel is released
first, repeating the create order on the remaining resources rather than
reversing it. -/
theorem delete_order_amended (s : SessionState) (r1 r2 : Response) :
    (deleteTunnel s r1 r2).2 = [] ∨
    (deleteTunnel s r1 r2).2 = [RemoteCall.deleteCall s.tunnelId] ∨
    (deleteTunnel s r1 r2).2 =
      [RemoteCall.deleteCall s.tunnelId,
       RemoteCall.cnameDeleteCall s.tunnelName FIXED_DOMAIN] := by
  by_cases hid : s.tunnelId = ""
  · left
    simp [deleteTunnel, hid]
  · cases r1 with
    | netErr m =>
        right; left
        simp [deleteTunnel, hid]
    | parseErr st m =>
        right; left
        simp [deleteTunnel, hid]
    | body st j =>
        by_cases hs : j.success = false
        · right; left
          simp [deleteTunnel, hid, hs]
        · right; right
          cases r2 <;> simp [deleteTunnel, hid, hs]

/-- Claim C3 (corrected), counterexample: the claim says delete reports
Success and clears everything whenever release-tunnel succeeds, even when
the release-hostname call fails at the transport level.  But a transport
rejection of the CNAME fetch escapes to the outer catch: nothing is
cleared and the outcome is Failure with the transport message. -/
theorem delete_cname_transport_not_tolerated :
    okBindResp.isSuccess = true ∧
    (deleteTunnel provisionedState okBindResp (Response.netErr "connection refused")).1.tunnelId =
      "t1" ∧
    (deleteTunnel provisionedState okBindResp (Response.netErr "connection refused")).1.publicHostname =
      some "api-tunnel.house-iq.cc" ∧
    overallOutcome
        (deleteTunnel provisionedState okBindResp (Response.netErr "connection refused")).1 =
      some (false, "connection refused") := by
  refine ⟨rfl, ?_, rfl, rfl⟩
  decide

/-- Claim C3 (corrected, amended): for every delete whose release-tunnel
call succeeds and whose release-hostname exchange yields any response at
all (a parsed body — successful or declined — or an unparseable body), the
overall outcome is Success with the fixed message and identity, credential
and binding are all cleared; only a transport-level rejection of that
fetch, which never reaches the tolerated JSON-parse catch, breaks this. -/
theorem delete_success_amended (s : SessionState) (st : Nat) (j : ApiJson)
    (r2 : Response) (hid : s.tunnelId ≠ "") (hok : j.success = true)
    (htr : r2.isNetErr = false) :
    (deleteTunnel s (.body st j) r2).1.tunnelId = "" ∧
    (deleteTunnel s (.body st j) r2).1.tunnelToken = "" ∧
    (deleteTunnel s (.body st j) r2).1.publicHostname = none ∧
    overallOutcome (deleteTunnel s (.body st j) r2).1 =
      some (true, "Tunnel + hostname deleted") := by
  cases r2 with
  | netErr m => simp [Response.isNetErr] at htr
  | parseErr st2 m => simp [deleteTunnel, overallOutcome, hid, hok]
  | body st2 cj => simp [deleteTunnel, overallOutcome, hid, hok]

/-- Witness for the amended C3: deleting the provisioned session with a
successful release-tunnel response and a CNAME response that the service
declines with `dns error` still clears everything and reports Success. -/
theorem delete_success_amended_witness :
    (deleteTunnel provisionedState okBindResp
        (Response.body 500 ⟨false, some "dns error", "", ""⟩)).1.tunnelId = "" ∧
    (deleteTunnel provisionedState okBindResp
        (Response.body 500 ⟨false, some "dns error", "", ""⟩)).1.tunnelToken = "" ∧
    (deleteTunnel provisionedState okBindResp
        (Response.body 500 ⟨false, some "dns error", "", ""⟩)).1.publicHostname = none ∧
    overallOutcome (deleteTunnel provisionedState okBindResp
        (Response.body 500 ⟨false, some "dns error", "", ""⟩)).1 =
      some (true, "Tunnel + hostname deleted") :=
  delete_success_amended provisionedState 200 ⟨true, none, "", ""⟩
    (Response.body 500 ⟨false, some "dns error", "", ""⟩) (by decide) rfl rfl

/-- Claim C6 (corrected), counterexample: on entry `createTunnel` clears only
status, error and trace; on a provisioned session the pre-remote-call state
produced by the opening phase still holds the old identity, credential and
binding, and after a full invocation whose allocate call is declined the old
identity is still there. -/
theorem create_start_retains_fields :
    (createStart provisionedState).tunnelId = "t1" ∧
    (createStart provisionedState).tunnelToken = "secret123" ∧
    (createStart provisionedState).publicHostname = some "api-tunnel.house-iq.cc" ∧
    (createTunnel provisionedState boomFailResp boomFailResp).1.tunnelId = "t1" :=
  ⟨rfl, rfl, rfl, rfl⟩

/-- Claim C6 (corrected, amended): at the start of every create invocation,
before any remote call, the prior status, error and diagnostic trace are
cleared and the busy flag is set, but the prior identity, credential and
hostname binding are retained, not cleared — and they are still unchanged
at the end of the invocation whenever the allocate call fails. -/
theorem create_start_amended (s : SessionState) (r1 r2 : Response)
    (hfail : r1.isSuccess = false) :
    ((createStart s).status = none ∧ (createStart s).error = none ∧
     (createStart s).debugLogs = [] ∧ (createStart s).loading = true) ∧
    ((createStart s).tunnelId = s.tunnelId ∧
     (createStart s).tunnelToken = s.tunnelToken ∧
     (createStart s).publicHostname = s.publicHostname) ∧
    ((createTunnel s r1 r2).1.tunnelId = s.tunnelId ∧
     (createTunnel s r1 r2).1.tunnelToken = s.tunnelToken ∧
     (createTunnel s r1 r2).1.publicHostname = s.publicHostname) := by
  refine ⟨⟨rfl, rfl, rfl, rfl⟩, ⟨rfl, rfl, rfl⟩, ?_⟩
  cases r1 with
  | netErr m => simp [createTunnel, createStart]
  | parseErr st m => simp [createTunnel, createStart]
  | body st j =>
      simp [Response.isSuccess] at hfail
      simp [createTunnel, createStart, hfail]

/-- Witness for the amended C6: on the provisioned session with a declined
allocate call, the start phase clears status, error and trace but keeps the
identity, credential and binding, and the invocation keeps them to the
end. -/
theorem create_start_amended_witness :
    ((createStart provisionedState).status = none ∧
     (createStart provisionedState).error = none ∧
     (createStart provisionedState).debugLogs = [] ∧
     (createStart provisionedState).loading = true) ∧
    ((createStart provisionedState).tunnelId = provisionedState.tunnelId ∧
     (createStart provisionedState).tunnelToken = provisionedState.tunnelToken ∧
     (createStart provisionedState).publicHostname = provisionedState.publicHostname) ∧
    ((createTunnel provisionedState boomFailResp okBindResp).1.tunnelId =
       provisionedState.tunnelId ∧
     (createTunnel provisionedState boomFailResp okBindResp).1.tunnelToken =
       provisionedState.tunnelToken ∧
     (createTunnel provisionedState boomFailResp okBindResp).1.publicHostname =
       provisionedState.publicHostname) :=
  create_start_amended provisionedState boomFailResp okBindResp rfl

/-- A session that is mid-workflow (busy flag set) and has an empty tunnel
name, used to show that `createTunnel` checks neither. -/
def busyEmptyNameState : SessionState :=
  { initState with tunnelName := "", loading := true }

/-- Claim C7 (corrected), counterexample: invoked with an empty name while
the busy flag is already true, `createTunnel` does not reject — it attempts
both remote calls (and even reports success when they succeed). -/
theorem busy_empty_create_still_calls :
    busyEmptyNameState.tunnelName = "" ∧
    busyEmptyNameState.loading = true ∧
    (createTunnel busyEmptyNameState okCreateResp okBindResp).2 ≠ [] ∧
    (createTunnel busyEmptyNameState okCreateResp okBindResp).2 =
      [RemoteCall.createCall "",
       RemoteCall.hostnameCall "t1" "" "house-iq.cc" "http://homeassistant:8123"] := by
  refine ⟨rfl, rfl, ?_, rfl⟩
  decide

/-- Claim C7 (corrected, amended): only delete with an empty id rejects
immediately — it sets the error message, changes nothing else and performs
zero remote calls; create has no empty-name or busy precondition check at
all and always attempts at least one remote call (the mutual exclusion of
workflows lives solely in the presentation layer, which disables the
buttons while the busy flag is set). -/
theorem precondition_amended :
    (∀ (s : SessionState) (r1 r2 : Response), s.tunnelId = "" →
        deleteTunnel s r1 r2 = ({ s with error := some "No tunnel ID set" }, [])) ∧
    (∀ (s : SessionState) (r1 r2 : Response), (createTunnel s r1 r2).2 ≠ []) := by
  constructor
  · intro s r1 r2 hid
    simp [deleteTunnel, hid]
  · intro s r1 r2
    cases r1 <;> cases r2 <;>
      simp only [createTunnel, createStart] <;>
      (try split) <;> (try split) <;> simp
/-- Witness for the amended C7: deleting with the initial (empty) tunnel id
rejects with the fixed message and no calls, while creating from the busy
empty-name session still attempts calls. -/
theorem precondition_amended_witness :
    deleteTunnel initState boomFailResp okBindResp =
      ({ initState with error := some "No tunnel ID set" }, []) ∧
    (createTunnel busyEmptyNameState okCreateResp okBindResp).2 ≠ [] :=
  ⟨precondition_amended.1 initState boomFailResp okBindResp rfl,
   precondition_amended.2 busyEmptyNameState okCreateResp okBindResp⟩

/-- An allocate response is id-sound when, if it reports success, the
identity string in its payload is nonempty (nonempty meaning present, since
the code stores the identity in a plain string whose empty value is its
null sentinel). -/
def allocIdOk (r : Response) : Bool :=
  match r with
  | .body _ j => !j.success || !(j.resultId == "")
  | _ => true

/-- An invocation is id-sound when, if it is a create, its allocate
response is id-sound. -/
def opAllocOk (op : Op) : Bool :=
  match op with
  | .create r1 _ => allocIdOk r1
  | .delete _ _ => true

/-- The binding-to-identity invariant: a hostname binding is held only when
the tunnel identity is held (nonempty). -/
def bindingInv (s : SessionState) : Prop :=
  s.publicHostname ≠ none → s.tunnelId ≠ ""

/-- Claim C8 (corrected), counterexample: the provisioning service can
answer the allocate call successfully with an empty identity string; the
subsequent successful bind then records a hostname binding while the
session identity is the empty string — the null sentinel of the code, for
which the delete button reports no tunnel id.  One create invocation from
the initial state reaches a state violating the invariant. -/
theorem binding_without_identity :
    (runOps initState
        [Op.create (Response.body 200 ⟨true, none, "", "tok"⟩) okBindResp]).publicHostname =
      some "api-tunnel.house-iq.cc" ∧
    (runOps initState
        [Op.create (Response.body 200 ⟨true, none, "", "tok"⟩) okBindResp]).tunnelId = "" :=
  ⟨rfl, rfl⟩

/-- One invocation preserves the binding-to-identity invariant when its
allocate response is id-sound. -/
theorem bindingInv_step (s : SessionState) (op : Op)
    (hinv : bindingInv s) (hop : opAllocOk op = true) :
    bindingInv (applyOp s op) := by
  cases op with
  | create r1 r2 =>
      cases r1 with
      | netErr m =>
          simpa [bindingInv, applyOp, createTunnel, createStart] using hinv
      | parseErr st m =>
          simpa [bindingInv, applyOp, createTunnel, createStart] using hinv
      | body st j =>
          by_cases hs : j.success = false
          · simpa [bindingInv, applyOp, createTunnel, createStart, hs] using hinv
          · have hsucc : j.success = true := by
              revert hs; cases j.success <;> simp
            have hid : j.resultId ≠ "" := by
              simp [opAllocOk, allocIdOk, hsucc] at hop
              exact hop
            cases r2 <;>
              simp [bindingInv, applyOp, createTunnel, createStart, hs] <;>
              intro _h <;> (try split) <;> exact hid
  | delete r1 r2 =>
      by_cases hid : s.tunnelId = ""
      · simpa [bindingInv, applyOp, deleteTunnel, hid] using hinv
      · cases r1 with
        | netErr m =>
            simp [bindingInv, applyOp, deleteTunnel, hid]
        | parseErr st m =>
            simp [bindingInv, applyOp, deleteTunnel, hid]
        | body st j =>
            by_cases hs : j.success = false
            · simp [bindingInv, applyOp, deleteTunnel, hid, hs]
            · cases r2 with
              | netErr m =>
                  simp [bindingInv, applyOp, deleteTunnel, hid, hs]
              | parseErr st2 m =>
                  simp [bindingInv, applyOp, deleteTunnel, hid, hs]
              | body st2 cj =>
                  simp [bindingInv, applyOp, deleteTunnel, hid, hs]

/-- A sequence of id-sound invocations preserves the binding-to-identity
invariant from any state satisfying it. -/
theorem runOps_inv (ops : List Op) : ∀ s : SessionState, bindingInv s →
    (∀ op ∈ ops, opAllocOk op = true) → bindingInv (runOps s ops) := by
  induction ops with
  | nil =>
      intro s hs _
      simpa [runOps] using hs
  | cons op ops ih =>
      intro s hs hops
      simp only [runOps]
      exact ih (applyOp s op) (bindingInv_step s op hs (hops op (by simp)))
        (fun o ho => hops o (by simp [ho]))

/-- Claim C8 (corrected, amended): in every state reachable from the
initial state by create and delete invocations whose successful allocate
responses carry a nonempty identity, a hostname binding is held only when
the tunnel identity is held. -/
theorem binding_implies_identity_amended (ops : List Op)
    (hops : ∀ op ∈ ops, opAllocOk op = true) :
    (runOps initState ops).publicHostname ≠ none →
      (runOps initState ops).tunnelId ≠ "" :=
  runOps_inv ops initState (fun h => absurd rfl h) hops

/-- Witness for the amended C8: after one fully successful id-sound create,
the state holds a binding and therefore a nonempty identity. -/
theorem binding_implies_identity_amended_witness :
    (runOps initState [Op.create okCreateResp okBindResp]).tunnelId ≠ "" :=
  binding_implies_identity_amended [Op.create okCreateResp okBindResp]
    (by decide) (by decide)
